import Mathlib

/-!
Shallow embedding of the data-acquisition / geometric-query / search core of the
tx-hs-fed-grantee repository, together with proofs settling the frozen claims.

Numbers that JavaScript handles as IEEE doubles are embedded as exact rationals
(`ℚ`) where the source only adds, multiplies, divides and compares, and as real
numbers (`ℝ`) where the source calls transcendental functions (`Math.log2`,
`Math.sin`, `Math.atan2`).  JavaScript `NaN` / `undefined` / string-valued
fields are modelled explicitly where a claim depends on them.
-/

namespace TxHs

/-- Runtime value of a JavaScript field that is expected to be a number:
an actual (finite) number, `NaN`, a string, or `undefined`.
`Infinity` never arises in the data paths the claims touch. -/
inductive JsNum where
  | num (q : ℚ)
  | nan
  | str (s : String)
  | undef
deriving DecidableEq, Repr

/-- JavaScript `typeof v === 'number'`.  Note `typeof NaN === 'number'` is
`true`. -/
def jsTypeofIsNumber : JsNum → Bool
  | .num _ => true
  | .nan => true
  | _ => false

/-- JavaScript `v >= q` for a numeric right-hand side.  A `NaN` or `undefined`
left operand compares `false`; every call site in the embedded code guards the
operand with a `typeof === 'number'` check first, so the string-coercion path
of JavaScript relational operators is never exercised and is mapped to the
`NaN` behaviour here. -/
def jsGeQ : JsNum → ℚ → Bool
  | .num x, q => decide (q ≤ x)
  | _, _ => false

/-- JavaScript `v <= q` for a numeric right-hand side (same conventions as
`jsGeQ`). -/
def jsLeQ : JsNum → ℚ → Bool
  | .num x, q => decide (x ≤ q)
  | _, _ => false

/-- Embeds `isWithinTexasBounds` from `src/data/headStartPrograms.ts`. -/
def isWithinTexasBounds (lat lng : JsNum) : Bool :=
  jsGeQ lat (25.8371 : ℚ) &&
  jsLeQ lat (36.5007 : ℚ) &&
  jsGeQ lng (-106.6456 : ℚ) &&
  jsLeQ lng (-93.5080 : ℚ)

/-- Embeds the `HeadStartProgram` record (fields the core reads). -/
structure HeadStartProgram where
  id : String
  name : String
  address : String
  lat : JsNum
  lng : JsNum
  progType : String
  grantee : Option String
  funding : Option ℚ
deriving DecidableEq, Repr

/-- Embeds the raw coordinates sub-object `{lat, lng}` of a raw record. -/
structure RawCoords where
  lat : JsNum
  lng : JsNum
deriving DecidableEq, Repr

/-- Embeds `RawHeadStartProgram`.  `none` models a field that is absent
(`undefined`) in the fetched JSON. -/
structure RawHeadStartProgram where
  name : Option String
  address : Option String
  coordinates : Option RawCoords
deriving DecidableEq, Repr

/-- Embeds `validateHeadStartProgram` from `src/data/headStartPrograms.ts`:
falsy (empty) name/address/id, non-`number` coordinates, or out-of-bounds
coordinates are rejected. -/
def validateHeadStartProgram (p : HeadStartProgram) : Bool :=
  if p.name == "" || p.address == "" || p.id == "" then false
  else if !(jsTypeofIsNumber p.lat) || !(jsTypeofIsNumber p.lng) then false
  else if !(isWithinTexasBounds p.lat p.lng) then false
  else true

/-- Embeds JavaScript `s.toLowerCase()` character-wise (the data is ASCII). -/
def jsToLower (s : String) : String :=
  ⟨s.data.map Char.toLower⟩

/-- Embeds JavaScript `s.trim()`: strip leading and trailing whitespace. -/
def jsTrim (s : String) : String :=
  ⟨((s.data.dropWhile Char.isWhitespace).reverse.dropWhile Char.isWhitespace).reverse⟩

/-- The `.map` callback of `processHeadStartPrograms`.  When `name`,
`address` or `coordinates` is absent the JavaScript callback throws a
`TypeError` (`.trim()` / property read on `undefined`), modelled as
`Except.error`. -/
def mapRawProgram (i : Nat) (r : RawHeadStartProgram) : Except String HeadStartProgram :=
  match r.name, r.address, r.coordinates with
  | some n, some a, some c =>
      .ok { id := "program-" ++ toString i
            name := jsTrim n
            address := jsTrim a
            lat := c.lat
            lng := c.lng
            progType := "head-start"
            grantee := some (jsTrim n)
            funding := none }
  | _, _, _ => .error "TypeError"

/-- Runs the `.map` step over the whole array; the first throwing record
aborts the batch, exactly as an exception aborts `Array.prototype.map`. -/
def mapRawPrograms : Nat → List RawHeadStartProgram → Except String (List HeadStartProgram)
  | _, [] => .ok []
  | i, r :: rs => do
      let p ← mapRawProgram i r
      let ps ← mapRawPrograms (i + 1) rs
      .ok (p :: ps)

/-- Embeds `processHeadStartPrograms`: map (sequential ids, trimming,
defaults) then filter by `validateHeadStartProgram`. -/
def processHeadStartPrograms (raws : List RawHeadStartProgram) :
    Except String (List HeadStartProgram) :=
  (mapRawPrograms 0 raws).map (·.filter validateHeadStartProgram)

/-- Prefix test on character lists (used to embed `String.includes`). -/
def charsPfx : List Char → List Char → Bool
  | [], _ => true
  | _ :: _, [] => false
  | a :: as, b :: bs => a == b && charsPfx as bs

/-- Substring test on character lists. -/
def charsSub (needle : List Char) : List Char → Bool
  | [] => charsPfx needle []
  | b :: bs => charsPfx needle (b :: bs) || charsSub needle bs

/-- Embeds JavaScript `hay.includes(needle)`. -/
def jsIncludes (hay needle : String) : Bool :=
  charsSub needle.data hay.data

/-- Embeds the `SearchOptions` defaults record of the search hook. -/
structure SearchOptions where
  includePrograms : Bool
  includeDistricts : Bool
  minSearchLength : Nat
deriving DecidableEq, Repr

/-- Embeds the truthiness-guarded grantee clause
`(program.grantee && program.grantee.toLowerCase().includes(term))`. -/
def granteeMatch (g : Option String) (term : String) : Bool :=
  match g with
  | none => false
  | some s => !(s == "") && jsIncludes (jsToLower s) term

/-- Embeds the `filteredPrograms` memo of the search hook: gate on empty
term, disabled inclusion, or term shorter than `minSearchLength`; otherwise a
case-insensitive substring filter over name, address and grantee. -/
def filteredPrograms (opts : SearchOptions) (searchTerm : String)
    (allPrograms : List HeadStartProgram) : List HeadStartProgram :=
  if searchTerm == "" || !opts.includePrograms ||
      searchTerm.length < opts.minSearchLength then
    allPrograms
  else
    let term := jsTrim (jsToLower searchTerm)
    allPrograms.filter fun p =>
      jsIncludes (jsToLower p.name) term ||
      jsIncludes (jsToLower p.address) term ||
      granteeMatch p.grantee term

/-- Embeds `filterHeadStartPrograms` from `src/data/headStartPrograms.ts`
(the standalone filter used outside the hook). -/
def filterHeadStartPrograms (programs : List HeadStartProgram)
    (searchTerm : String) : List HeadStartProgram :=
  if jsTrim searchTerm == "" then programs
  else
    let term := jsTrim (jsToLower searchTerm)
    programs.filter fun p =>
      jsIncludes (jsToLower p.name) term ||
      jsIncludes (jsToLower p.address) term ||
      granteeMatch p.grantee term

/-!
Geometry kernel.  A ring vertex is the pair of the two entries of a GeoJSON
coordinate array: component `1` is the array entry `[0]`, component `2` is
the array entry `[1]`.  GeoJSON stores `[longitude, latitude]`.
-/

/-- Vertex of a ring: `(entry 0, entry 1)` of the raw coordinate pair. -/
abbrev GeoPoint := ℚ × ℚ

/-- Ring of a polygon. -/
abbrev Ring := List GeoPoint

/-- GeoJSON geometry restricted to the two types the code handles. -/
inductive Geometry where
  | polygon (coordinates : List Ring)
  | multiPolygon (coordinates : List (List Ring))
deriving Repr

/-- One iteration of the ray-casting loop of `isPointInSinglePolygon`
(src/data/congressionalDistricts module).  The source reads `polygon[i][1]`
as the longitude `xi` and `polygon[i][0]` as the latitude `yi`. -/
def rayCastStep (lat lng : ℚ) (inside : Bool) (e : GeoPoint × GeoPoint) : Bool :=
  let xi := e.1.2
  let yi := e.1.1
  let xj := e.2.2
  let yj := e.2.1
  if (decide (yi > lat) != decide (yj > lat)) &&
      decide (lng < (xj - xi) * (lat - yi) / (yj - yi) + xi)
  then !inside else inside

/-- Edge list traversed by the loop `for (i = 0, j = n - 1; i < n; j = i++)`:
pairs `(p i, p j)` where `j` is the predecessor index, wrapping to the last
vertex for `i = 0`. -/
def ringEdges (ring : Ring) : List (GeoPoint × GeoPoint) :=
  match ring.getLast? with
  | none => []
  | some l => ring.zip (l :: ring)

/-- Embeds `isPointInSinglePolygon`: ray casting over the outer ring. -/
def isPointInSinglePolygon (lat lng : ℚ) (coordinates : List Ring) : Bool :=
  match coordinates with
  | [] => false
  | polygon :: _ => (ringEdges polygon).foldl (rayCastStep lat lng) false

/-- Embeds `isPointInMultiPolygon`. -/
def isPointInMultiPolygon (lat lng : ℚ) (coordinates : List (List Ring)) : Bool :=
  coordinates.any fun polygon => isPointInSinglePolygon lat lng polygon

/-- Embeds `isPointInPolygon`: dispatch on the geometry type. -/
def isPointInPolygon (lat lng : ℚ) : Geometry → Bool
  | .polygon coords => isPointInSinglePolygon lat lng coords
  | .multiPolygon coords => isPointInMultiPolygon lat lng coords

/-- One iteration of the ray-casting loop of the `isPointInSinglePolygon`
replacement installed by the repository's own jest module mock
(`src/setupTests.ts`), which reads `polygon[i][0]` as the longitude and
`polygon[i][1]` as the latitude, i.e. GeoJSON `[lng, lat]` order. -/
def rayCastStepMock (lat lng : ℚ) (inside : Bool) (e : GeoPoint × GeoPoint) : Bool :=
  let xi := e.1.1
  let yi := e.1.2
  let xj := e.2.1
  let yj := e.2.2
  if (decide (yi > lat) != decide (yj > lat)) &&
      decide (lng < (xj - xi) * (lat - yi) / (yj - yi) + xi)
  then !inside else inside

/-- Embeds the jest-mock version of `isPointInSinglePolygon` from
`src/setupTests.ts` (correct GeoJSON `[lng, lat]` reading). -/
def isPointInSinglePolygonMock (lat lng : ℚ) (coordinates : List Ring) : Bool :=
  match coordinates with
  | [] => false
  | polygon :: _ => (ringEdges polygon).foldl (rayCastStepMock lat lng) false

/-- Latitude/longitude record (`google.maps.LatLngLiteral`). -/
structure LatLng where
  lat : ℚ
  lng : ℚ
deriving DecidableEq, Repr

/-- Fallback center used by both centroid computations. -/
def texasFallbackCenter : LatLng := { lat := 31.9686, lng := -99.9018 }

/-- Vertex average as computed by the source: entry `[1]` summed for the
latitude, entry `[0]` for the longitude, each divided by the vertex count. -/
def meanCenter (coords : List GeoPoint) : LatLng :=
  { lat := (coords.foldl (fun s c => s + c.2) 0) / (coords.length : ℚ)
    lng := (coords.foldl (fun s c => s + c.1) 0) / (coords.length : ℚ) }

/-- Embeds `calculateGeometryCenter` from the `useMapData` hook.  `none`
models a thrown `TypeError`: for a `Polygon` with an empty `coordinates`
array the source reads `.length` of `undefined`, and for a `MultiPolygon`
containing a member with no rings the source concatenates `undefined` into
the vertex array and then reads `coord[1]` of `undefined` in the reduce. -/
def calculateGeometryCenter : Geometry → Option LatLng
  | .polygon [] => none
  | .polygon (ring0 :: _) =>
      if ring0.isEmpty then some texasFallbackCenter else some (meanCenter ring0)
  | .multiPolygon polys =>
      if polys.any (·.isEmpty) then none
      else
        let allCoordinates := polys.foldl (fun acc p => acc ++ p.headD []) []
        if allCoordinates.isEmpty then some texasFallbackCenter
        else some (meanCenter allCoordinates)

/-- Embeds `calculateMapCenter` from `src/utils/mapHelpers.ts`. -/
def calculateMapCenter (locations : List LatLng) : LatLng :=
  if locations.length = 0 then { lat := 31.9686, lng := -99.9018 }
  else if locations.length = 1 then
    { lat := (locations.headD ⟨0, 0⟩).lat, lng := (locations.headD ⟨0, 0⟩).lng }
  else
    { lat := (locations.foldl (fun s l => s + l.lat) 0) / (locations.length : ℚ)
      lng := (locations.foldl (fun s l => s + l.lng) 0) / (locations.length : ℚ) }

/-!
Congressional-district loader (the 36-way fan-out of `useMapData`).
-/

/-- Embeds `CongressionalDistrictProperties`. -/
structure DistrictProperties where
  district : String
  name : String
  representative : String
  districtNumber : Nat
  state : String
deriving DecidableEq, Repr

/-- Embeds `CongressionalDistrictFeature` (fields the core reads). -/
structure CongressionalDistrictFeature where
  properties : DistrictProperties
  geometry : Geometry
deriving Repr

/-- Embeds `getOrdinalSuffix`. -/
def getOrdinalSuffix (num : Nat) : String :=
  let j := num % 10
  let k := num % 100
  if j = 1 ∧ k ≠ 11 then "st"
  else if j = 2 ∧ k ≠ 12 then "nd"
  else if j = 3 ∧ k ≠ 13 then "rd"
  else "th"

/-- Embeds `validateCongressionalDistrict`.  The `typeof districtNumber`
check is always satisfied in the embedding (the field is numeric by type),
and the final geometry/coordinates truthiness checks are always satisfied
because the embedded feature always carries a geometry whose `coordinates`
is an array (JavaScript objects and arrays, even empty ones, are truthy). -/
def validateCongressionalDistrict (d : CongressionalDistrictFeature) : Bool :=
  if d.properties.district == "" || d.properties.name == "" ||
      d.properties.representative == "" then false
  else if d.properties.districtNumber < 1 then false
  else if !(d.properties.state == "TX") then false
  else true

/-- Embeds the contact block merged into a district. -/
structure Contact where
  phone : Option String
  email : Option String
  website : Option String
  office : Option String
deriving DecidableEq, Repr

/-- Embeds `CongressionalDistrict` (fields the core reads and writes). -/
structure CongressionalDistrict where
  number : Nat
  representative : String
  party : Option String
  photoUrl : Option String
  contact : Option Contact
  committees : Option (List String)
  population : Nat
  center : LatLng
  headStartPrograms : List HeadStartProgram
  geoJsonFeature : CongressionalDistrictFeature
deriving Repr

/-- Outcome of one per-index district fetch, as classified by the source:
an HTTP non-success, a body that fails to parse, or a parsed body whose
`geometry` (with `coordinates`) is present or absent. -/
inductive FetchResult where
  | httpFailure (status : Nat)
  | parseFailure
  | body (geometry : Option Geometry)

/-- District feature constructed by `loadCongressionalDistricts` for index
`n`. -/
def mkDistrictFeature (n : Nat) (g : Geometry) : CongressionalDistrictFeature :=
  { properties :=
      { district := "TX-" ++ toString n
        name := "Texas " ++ toString n ++ getOrdinalSuffix n ++ " Congressional District"
        representative := "Representative " ++ toString n
        districtNumber := n
        state := "TX" }
    geometry := g }

/-- Per-index body of the fan-out: every failure path (HTTP non-success,
parse failure, missing geometry/coordinates, and a `TypeError` thrown by
`calculateGeometryCenter`) is caught and yields `none`; a success yields the
constructed feature/district pair. -/
def processDistrictFetch (n : Nat) (fr : FetchResult) :
    Option (CongressionalDistrictFeature × CongressionalDistrict) :=
  match fr with
  | .body (some g) =>
      let feature := mkDistrictFeature n g
      match calculateGeometryCenter g with
      | some c =>
          some (feature,
            { number := n
              representative := "Representative " ++ toString n
              party := none
              photoUrl := none
              contact := none
              committees := none
              population := 750000
              center := c
              headStartPrograms := []
              geoJsonFeature := feature })
      | none => none
  | _ => none

/-- The 36 expected district indices `1..36`. -/
def districtNumbers : List Nat := (List.range 36).map (· + 1)

/-- Observable outcome of one run of `loadCongressionalDistricts`:
the stored features/districts and the `districtsError` channel
(`none` models the Success state). -/
structure DistrictsLoadResult where
  rawDistrictFeatures : List CongressionalDistrictFeature
  congressionalDistricts : List CongressionalDistrict
  districtsError : Option String
deriving Repr

/-- Embeds `loadCongressionalDistricts`: fan out over the 36 indices, keep
the non-null results that pass `validateCongressionalDistrict`, and throw
(caught into `districtsError`) exactly when zero results remain. -/
def loadCongressionalDistricts (f : Nat → FetchResult) : DistrictsLoadResult :=
  let results := districtNumbers.map fun n => processDistrictFetch n (f n)
  let validResults := (results.filterMap id).filter fun r =>
    validateCongressionalDistrict r.1
  if validResults.length = 0 then
    { rawDistrictFeatures := []
      congressionalDistricts := []
      districtsError := some "Failed to load congressional districts data: No valid congressional districts found in the data" }
  else
    { rawDistrictFeatures := validResults.map (·.1)
      congressionalDistricts := validResults.map (·.2)
      districtsError := none }

/-!
Retry state machine of the resilient loader (one channel).
-/

/-- Retry cap from the hook. -/
def MAX_RETRY_ATTEMPTS : Nat := 3

/-- Per-source load state: `loading`, `error`, `retryCount`. -/
structure LoadState where
  loading : Bool
  error : Option String
  retryCount : Nat
deriving DecidableEq, Repr

/-- State after the catch block of one failed attempt: error message set,
counter incremented, loading cleared by the finally block. -/
def failedAttemptState (msg : String) (s : LoadState) : LoadState :=
  { loading := false, error := some msg, retryCount := s.retryCount + 1 }

/-- Delay of the automatic re-attempt scheduled by the catch block: the
pre-increment counter gates the `setTimeout` and feeds the exponent
(`1000 * Math.pow(2, retryCount)`); at or beyond the cap nothing is
scheduled. -/
def scheduledRetryDelay (s : LoadState) : Option Nat :=
  if s.retryCount < MAX_RETRY_ATTEMPTS then some (1000 * 2 ^ s.retryCount) else none

/-- Chain of consecutive failing attempts, following the scheduled
re-attempts until the catch block stops scheduling.  The `fuel` argument is
a structural bound on the chain length; the counter increases by one per
failure and scheduling stops once it reaches the cap, so
`MAX_RETRY_ATTEMPTS + 1` units are always enough. -/
def runFailingAttemptsFuel (msg : String) : Nat → LoadState → LoadState × List Nat
  | 0, s => (s, [])
  | fuel + 1, s =>
      match scheduledRetryDelay s with
      | some d =>
          let rest := runFailingAttemptsFuel msg fuel (failedAttemptState msg s)
          (rest.1, d :: rest.2)
      | none => (failedAttemptState msg s, [])

/-- Runs failing attempts from a state until no further automatic retry is
scheduled, returning the final state and the list of scheduled delays. -/
def runFailingAttempts (msg : String) (s : LoadState) : LoadState × List Nat :=
  runFailingAttemptsFuel msg (MAX_RETRY_ATTEMPTS + 1) s

/-- Entry of a load function: loading set, error cleared. -/
def enterLoading (s : LoadState) : LoadState :=
  { s with loading := true, error := none }

/-- Embeds one channel of `retryLoading`: when the channel has an error,
reset the counter to 0 and re-invoke the load function (which re-enters
loading); otherwise do nothing. -/
def retryLoading (s : LoadState) : LoadState :=
  if s.error.isSome then enterLoading { s with retryCount := 0 } else s

/-!
Enrichment merger (`loadCongressionalData` success path).
-/

/-- Embeds the `depiction` sub-object of a Congress API member. -/
structure Depiction where
  imageUrl : Option String
deriving DecidableEq, Repr

/-- Embeds the `contactInformation` sub-object of a Congress API member. -/
structure ContactInformation where
  phoneNumber : Option String
  email : Option String
  websiteUrl : Option String
  officeAddress : Option String
deriving DecidableEq, Repr

/-- Embeds a Congress API member record.  `termsCommittees` models the
optional chain `terms?.[0]?.current?.committees?.map(c => c.name)`
(`none` when any link of the chain is absent). -/
structure CongressApiMember where
  name : String
  party : String
  district : String
  depiction : Option Depiction
  contactInformation : Option ContactInformation
  termsCommittees : Option (List String)
deriving DecidableEq, Repr

/-- Accumulates a decimal digit list into a natural number. -/
def digitsToNat (cs : List Char) : Nat :=
  cs.foldl (fun a c => a * 10 + (c.toNat - 48)) 0

/-- Embeds `parseInt(s, 10)`: skip leading whitespace, optional sign,
longest decimal-digit prefix; `none` models `NaN`. -/
def jsParseInt (s : String) : Option Int :=
  let cs := s.data.dropWhile fun c => c = ' ' || c = '\t' || c = '\n' || c = '\r'
  match cs with
  | '-' :: t =>
      let ds := t.takeWhile (·.isDigit)
      if ds.isEmpty then none else some (-(digitsToNat ds : Int))
  | '+' :: t =>
      let ds := t.takeWhile (·.isDigit)
      if ds.isEmpty then none else some (digitsToNat ds : Int)
  | t =>
      let ds := t.takeWhile (·.isDigit)
      if ds.isEmpty then none else some (digitsToNat ds : Int)

/-- Match predicate of the merge: `parseInt(member.district, 10) ===
district.number` (`NaN` compares unequal to everything). -/
def memberMatchesDistrict (m : CongressApiMember) (d : CongressionalDistrict) : Bool :=
  jsParseInt m.district == some (d.number : Int)

/-- Field merge applied to a district when a member matches. -/
def applyRepresentative (m : CongressApiMember) (d : CongressionalDistrict) :
    CongressionalDistrict :=
  { d with
    representative := m.name
    party := some m.party
    photoUrl := m.depiction.bind Depiction.imageUrl
    contact := some
      { phone := m.contactInformation.bind ContactInformation.phoneNumber
        email := m.contactInformation.bind ContactInformation.email
        website := m.contactInformation.bind ContactInformation.websiteUrl
        office := m.contactInformation.bind ContactInformation.officeAddress }
    committees := some (m.termsCommittees.getD []) }

/-- Embeds the `setCongressionalDistricts` updater of the merge: for every
district, find the first member whose parsed district number equals the
district's index and merge its fields; otherwise return the district
unchanged. -/
def updateDistrictsWithMembers (members : List CongressApiMember)
    (districts : List CongressionalDistrict) : List CongressionalDistrict :=
  districts.map fun district =>
    match members.find? (fun m => memberMatchesDistrict m district) with
    | some representative => applyRepresentative representative district
    | none => district


/-! Concrete records and evaluation lemmas shared by the claim theorems. -/

/-- Outer ring of the convex test square from the repository's own unit
tests: GeoJSON `[lng, lat]` vertices, longitudes in `[-97, -96]`, latitudes
in `[30, 31]`. -/
def squareRing : Ring :=
  [(-97, 30), (-97, 31), (-96, 31), (-96, 30), (-97, 30)]

/-- The test square as a `Polygon` geometry. -/
def squareGeometry : Geometry := .polygon [squareRing]

/-- Raw Austin record (well-formed, inside Texas). -/
def austinRaw : RawHeadStartProgram :=
  ⟨some "Austin Head Start", some "123 Main St, Austin, TX 78701",
    some ⟨.num 30, .num (-97)⟩⟩

/-- Raw Houston record (well-formed, inside Texas). -/
def houstonRaw : RawHeadStartProgram :=
  ⟨some "Houston Early Head Start", some "456 Oak Ave, Houston, TX 77002",
    some ⟨.num 29, .num (-95)⟩⟩

/-- Raw record whose latitude is the non-numeric string `'invalid'`. -/
def badLatRaw : RawHeadStartProgram :=
  ⟨some "Invalid Coordinates", some "456 Invalid Ave", some ⟨.str "invalid", .num (-97)⟩⟩

/-- Raw record whose `name` field is absent. -/
def missingNameRaw : RawHeadStartProgram :=
  ⟨none, some "456 Invalid Ave", some ⟨.num 30, .num (-97)⟩⟩

/-- Raw record whose latitude is `NaN`. -/
def nanLatRaw : RawHeadStartProgram :=
  ⟨some "NaN Site", some "1 Nowhere Rd", some ⟨.nan, .num (-97)⟩⟩

/-- Processed Austin record. -/
def austinProgram : HeadStartProgram :=
  { id := "program-0", name := "Austin Head Start"
    address := "123 Main St, Austin, TX 78701"
    lat := .num 30, lng := .num (-97)
    progType := "head-start", grantee := some "Austin Head Start", funding := none }

/-- Processed Houston record. -/
def houstonProgram : HeadStartProgram :=
  { id := "program-1", name := "Houston Early Head Start"
    address := "456 Oak Ave, Houston, TX 77002"
    lat := .num 29, lng := .num (-95)
    progType := "head-start", grantee := some "Houston Early Head Start", funding := none }

/-- Austin coordinates are inside the Texas bounds. -/
theorem bounds_num_30_m97 : isWithinTexasBounds (.num 30) (.num (-97)) = true := by
  norm_num [isWithinTexasBounds, jsGeQ, jsLeQ]

/-- Houston coordinates are inside the Texas bounds. -/
theorem bounds_num_29_m95 : isWithinTexasBounds (.num 29) (.num (-95)) = true := by
  norm_num [isWithinTexasBounds, jsGeQ, jsLeQ]

/-- A `NaN` latitude fails the bounds check outright. -/
theorem bounds_nan_lat (lng : JsNum) : isWithinTexasBounds .nan lng = false := rfl

/-! Helper lemmas. -/

/-- A string with the nonempty prefix `program-` is never empty. -/
theorem programId_ne_empty (s : String) : (("program-" ++ s) == "") = false := by
  apply beq_eq_false_iff_ne.mpr
  intro h
  have h2 := congrArg String.data h
  rw [String.data_append] at h2
  simp at h2

/-- The empty needle is a substring of everything (`''.includes` is `true`). -/
theorem jsIncludes_empty (s : String) : jsIncludes s "" = true := by
  unfold jsIncludes
  cases s.data <;> simp [charsSub, charsPfx]

/-- Unfolds `validateHeadStartProgram` into a Boolean conjunction. -/
theorem validateHeadStartProgram_eq (p : HeadStartProgram) :
    validateHeadStartProgram p =
      (!(p.name == "") && !(p.address == "") && !(p.id == "") &&
        jsTypeofIsNumber p.lat && jsTypeofIsNumber p.lng &&
        isWithinTexasBounds p.lat p.lng) := by
  unfold validateHeadStartProgram
  cases hn : (p.name == "") <;> cases ha : (p.address == "") <;> cases hi : (p.id == "") <;>
    cases hlat : jsTypeofIsNumber p.lat <;> cases hlng : jsTypeofIsNumber p.lng <;>
    cases hb : isWithinTexasBounds p.lat p.lng <;>
    simp [hn, ha, hi, hlat, hlng, hb]

/-- A validated program has in-bounds coordinates. -/
theorem bounds_of_validate (p : HeadStartProgram)
    (h : validateHeadStartProgram p = true) :
    isWithinTexasBounds p.lat p.lng = true := by
  rw [validateHeadStartProgram_eq] at h
  simp only [Bool.and_eq_true] at h
  exact h.2


/-- C1: evaluation of the shipped ray caster at the repository's own test
input.  The point `(lat 30.5, lng -96.5)` is strictly inside the GeoJSON
square `squareRing`; the unit tests and the jest mock expect `true`, but the
shipped implementation reads each `[lng, lat]` pair with the components
swapped and returns `false`. -/
theorem isPointInPolygon_disagrees_with_tests :
    isPointInPolygon (61/2) (-193/2) squareGeometry = false ∧
    isPointInSinglePolygonMock (61/2) (-193/2) [squareRing] = true := by
  constructor <;>
    norm_num [isPointInPolygon, isPointInSinglePolygon, isPointInSinglePolygonMock,
      squareGeometry, squareRing, ringEdges, rayCastStep, rayCastStepMock,
      List.getLast?, List.getLast]

/-- C6: the program filter returns the input verbatim when the term is
shorter than the gate or program inclusion is disabled; otherwise it is a
case-insensitive substring filter over name, address and grantee (OR across
the fields); and the query `aus` with gate 2 selects exactly the Austin
program out of the Austin/Houston pair. -/
theorem filteredPrograms_gate_and_match :
    (∀ opts searchTerm progs,
        searchTerm.length < opts.minSearchLength ∨ opts.includePrograms = false →
        filteredPrograms opts searchTerm progs = progs) ∧
    (∀ opts searchTerm progs, opts.includePrograms = true →
        opts.minSearchLength ≤ searchTerm.length →
        filteredPrograms opts searchTerm progs = progs.filter fun p =>
          jsIncludes (jsToLower p.name) (jsTrim (jsToLower searchTerm)) ||
          jsIncludes (jsToLower p.address) (jsTrim (jsToLower searchTerm)) ||
          granteeMatch p.grantee (jsTrim (jsToLower searchTerm))) ∧
    filteredPrograms ⟨true, true, 2⟩ "aus" [austinProgram, houstonProgram] =
      [austinProgram] := by
  refine ⟨?_, ?_, by decide⟩
  · intro opts searchTerm progs h
    have hc : (searchTerm == "" || !opts.includePrograms ||
        decide (searchTerm.length < opts.minSearchLength)) = true := by
      rcases h with h | h <;> simp [h]
    simp [filteredPrograms, hc]
  · intro opts searchTerm progs hinc hlen
    by_cases hterm : searchTerm = ""
    · subst hterm
      have h0 : jsTrim (jsToLower "") = "" := rfl
      have hall : ∀ p ∈ progs,
          (jsIncludes (jsToLower p.name) (jsTrim (jsToLower "")) ||
           jsIncludes (jsToLower p.address) (jsTrim (jsToLower "")) ||
           granteeMatch p.grantee (jsTrim (jsToLower ""))) = true := by
        intro p _
        simp [h0, jsIncludes_empty]
      rw [List.filter_eq_self.mpr hall]
      simp [filteredPrograms]
    · have hc : (searchTerm == "" || !opts.includePrograms ||
          decide (searchTerm.length < opts.minSearchLength)) = false := by
        simp [beq_eq_false_iff_ne.mpr hterm, hinc, Nat.not_lt.mpr hlen]
      simp [filteredPrograms, hc]

/-- C10: every Site in the output of `processHeadStartPrograms` satisfies
`isWithinTexasBounds`; in particular `NaN` passes the `typeof`-number check
but fails every bounds comparison, so a record with a `NaN` coordinate is
always dropped. -/
theorem processHeadStartPrograms_withinTexasBounds :
    (∀ raws out, processHeadStartPrograms raws = .ok out →
      ∀ p ∈ out, isWithinTexasBounds p.lat p.lng = true) ∧
    jsTypeofIsNumber .nan = true ∧
    (∀ lng, isWithinTexasBounds .nan lng = false) ∧
    (∀ lat, isWithinTexasBounds lat .nan = false) := by
  refine ⟨?_, rfl, fun lng => rfl, ?_⟩
  · intro raws out hok p hp
    unfold processHeadStartPrograms at hok
    cases hmap : mapRawPrograms 0 raws with
    | error e => rw [hmap] at hok; exact absurd hok (by simp [Except.map])
    | ok l =>
        rw [hmap] at hok
        simp only [Except.map, Except.ok.injEq] at hok
        subst hok
        exact bounds_of_validate p (List.of_mem_filter hp)
  · intro lat
    simp [isWithinTexasBounds, jsGeQ, jsLeQ]

/-- Processed form of `nanLatRaw`. -/
def nanProgram : HeadStartProgram :=
  { id := "program-1", name := "NaN Site", address := "1 Nowhere Rd"
    lat := .nan, lng := .num (-97)
    progType := "head-start", grantee := some "NaN Site", funding := none }

/-- Austin record passes validation. -/
theorem validate_austin : validateHeadStartProgram austinProgram = true := by
  simp +decide [validateHeadStartProgram_eq, austinProgram, bounds_num_30_m97]

/-- The `NaN`-latitude record fails validation (at the bounds check). -/
theorem validate_nan : validateHeadStartProgram nanProgram = false := by
  simp +decide [validateHeadStartProgram_eq, nanProgram, bounds_nan_lat]

/-- Evaluation of the loader map step on the C10 demonstration records. -/
theorem mapRaw_c10_eval :
    mapRawPrograms 0 [austinRaw, nanLatRaw] = .ok [austinProgram, nanProgram] := by
  rfl

/-- Evaluation of `processHeadStartPrograms` on the C10 demonstration
records: the `NaN` record is dropped. -/
theorem process_c10_eval :
    processHeadStartPrograms [austinRaw, nanLatRaw] = .ok [austinProgram] := by
  simp [processHeadStartPrograms, mapRaw_c10_eval, Except.map, List.filter,
    validate_austin, validate_nan]

/-- C10 witness: the invariant instantiated on a concrete run containing a
`NaN`-latitude record. -/
theorem processHeadStartPrograms_withinTexasBounds_witness :
    processHeadStartPrograms [austinRaw, nanLatRaw] = .ok [austinProgram] ∧
    ∀ p ∈ [austinProgram], isWithinTexasBounds p.lat p.lng = true :=
  ⟨process_c10_eval,
    fun p hp => processHeadStartPrograms_withinTexasBounds.1
      [austinRaw, nanLatRaw] [austinProgram] process_c10_eval p hp⟩


/-- All three raw fields are present (no `TypeError` in the map step). -/
def rawFieldsPresent (r : RawHeadStartProgram) : Bool :=
  r.name.isSome && r.address.isSome && r.coordinates.isSome

/-- Acceptance condition of validation, phrased on the raw record: nonempty
trimmed name and address, numeric coordinates, within the Texas bounds. -/
def rawAccepted (r : RawHeadStartProgram) : Bool :=
  match r.name, r.address, r.coordinates with
  | some n, some a, some c =>
      !(jsTrim n == "") && !(jsTrim a == "") &&
      jsTypeofIsNumber c.lat && jsTypeofIsNumber c.lng &&
      isWithinTexasBounds c.lat c.lng
  | _, _, _ => false

/-- Observable fields of a processed program (identifier and defaults
excluded). -/
def progView (p : HeadStartProgram) : String × String × JsNum × JsNum :=
  (p.name, p.address, p.lat, p.lng)

/-- The fields a raw record contributes to its processed program. -/
def rawView (r : RawHeadStartProgram) : String × String × JsNum × JsNum :=
  (jsTrim (r.name.getD ""), jsTrim (r.address.getD ""),
    (r.coordinates.map RawCoords.lat).getD .undef,
    (r.coordinates.map RawCoords.lng).getD .undef)

/-- Validation of a mapped record agrees with `rawAccepted` on its raw
source (the generated identifier is never empty). -/
theorem validate_mapRawProgram (i : Nat) (n a : String) (c : RawCoords) :
    validateHeadStartProgram
      { id := "program-" ++ toString i, name := jsTrim n, address := jsTrim a
        lat := c.lat, lng := c.lng, progType := "head-start"
        grantee := some (jsTrim n), funding := none } =
      rawAccepted ⟨some n, some a, some c⟩ := by
  rw [validateHeadStartProgram_eq]
  simp [rawAccepted, programId_ne_empty]

/-- The map step succeeds on field-complete records and the subsequent
filter keeps exactly the `rawAccepted` ones, in order. -/
theorem mapRawPrograms_ok_of_present (i : Nat) (raws : List RawHeadStartProgram)
    (h : ∀ r ∈ raws, rawFieldsPresent r = true) :
    ∃ l, mapRawPrograms i raws = .ok l ∧
      (l.filter validateHeadStartProgram).map progView =
        (raws.filter rawAccepted).map rawView := by
  induction raws generalizing i with
  | nil => exact ⟨[], rfl, rfl⟩
  | cons r rs ih =>
      obtain ⟨l, hl, hv⟩ := ih (i + 1) (fun x hx => h x (List.mem_cons_of_mem _ hx))
      have hr := h r (List.mem_cons_self r rs)
      rcases r with ⟨n, a, c⟩
      cases n with
      | none => simp [rawFieldsPresent] at hr
      | some n =>
      cases a with
      | none => simp [rawFieldsPresent] at hr
      | some a =>
      cases c with
      | none => simp [rawFieldsPresent] at hr
      | some c =>
      refine ⟨{ id := "program-" ++ toString i, name := jsTrim n, address := jsTrim a
                lat := c.lat, lng := c.lng, progType := "head-start"
                grantee := some (jsTrim n), funding := none } :: l, ?_, ?_⟩
      · simp only [mapRawPrograms, mapRawProgram, hl]
        rfl
      · cases hacc : rawAccepted ⟨some n, some a, some c⟩ with
        | false =>
            simp [List.filter_cons, validate_mapRawProgram, hacc, hv]
        | true =>
            simp [List.filter_cons, validate_mapRawProgram, hacc, hv, progView, rawView]

/-- C3 (amended): on a batch whose records all carry name, address and a
coordinates object, processing throws nothing and yields exactly the
records accepted by validation (trimmed name/address nonempty, numeric
in-bounds coordinates), in order; a record with an absent field instead
makes the whole batch throw (see the counterexample). -/
theorem processHeadStartPrograms_validation (raws : List RawHeadStartProgram)
    (h : ∀ r ∈ raws, rawFieldsPresent r = true) :
    ∃ out, processHeadStartPrograms raws = .ok out ∧
      out.map progView = (raws.filter rawAccepted).map rawView ∧
      out.length = (raws.filter rawAccepted).length := by
  obtain ⟨l, hl, hv⟩ := mapRawPrograms_ok_of_present 0 raws h
  refine ⟨l.filter validateHeadStartProgram, ?_, hv, ?_⟩
  · simp [processHeadStartPrograms, hl, Except.map]
  · have h2 := congrArg List.length hv
    simpa using h2

/-- C3 counterexample: a record whose `name` field is absent is not merely
rejected — `program.name.trim()` throws a `TypeError` inside `.map`, so the
whole batch (including the preceding well-formed record) produces no Sites
at all, contradicting reject-without-throwing. -/
theorem processHeadStartPrograms_throws_on_missing_name :
    processHeadStartPrograms [austinRaw, missingNameRaw] = .error "TypeError" := by
  rfl

/-- The three-record scenario list: one record has a non-numeric latitude. -/
def c3ScenarioRaws : List RawHeadStartProgram := [austinRaw, badLatRaw, houstonRaw]

/-- Processed form of `badLatRaw` (latitude is the string `'invalid'`). -/
def invalidProgram : HeadStartProgram :=
  { id := "program-1", name := "Invalid Coordinates", address := "456 Invalid Ave"
    lat := .str "invalid", lng := .num (-97)
    progType := "head-start", grantee := some "Invalid Coordinates", funding := none }

/-- Processed form of `houstonRaw` at index 2. -/
def houstonProgramNormalized : HeadStartProgram :=
  { id := "program-2", name := "Houston Early Head Start"
    address := "456 Oak Ave, Houston, TX 77002"
    lat := .num 29, lng := .num (-95)
    progType := "head-start", grantee := some "Houston Early Head Start", funding := none }

/-- Acceptance evaluation over the scenario list: exactly 2 records pass. -/
theorem c3Scenario_accepted_count :
    (c3ScenarioRaws.filter rawAccepted).length = 2 := by
  simp +decide [c3ScenarioRaws, rawAccepted, austinRaw, badLatRaw, houstonRaw,
    List.filter, bounds_num_30_m97, bounds_num_29_m95]

/-- C3 witness: the amended theorem instantiated on the three-record
scenario, which yields exactly 2 validated Sites. -/
theorem processHeadStartPrograms_validation_witness :
    (∀ r ∈ c3ScenarioRaws, rawFieldsPresent r = true) ∧
    (c3ScenarioRaws.filter rawAccepted).length = 2 ∧
    (∃ out, processHeadStartPrograms c3ScenarioRaws = .ok out ∧
      out.map progView = (c3ScenarioRaws.filter rawAccepted).map rawView ∧
      out.length = (c3ScenarioRaws.filter rawAccepted).length) :=
  ⟨by decide, c3Scenario_accepted_count,
    processHeadStartPrograms_validation c3ScenarioRaws (by decide)⟩


/-- Every listed polygon member carries at least one ring (the shapes on
which the centroid computation cannot throw). -/
def geomRingsPresent : Geometry → Bool
  | .polygon rings => !rings.isEmpty
  | .multiPolygon polys => polys.all fun p => !p.isEmpty

/-- Flattened outer-ring vertex list of a geometry. -/
def outerVertices : Geometry → List GeoPoint
  | .polygon rings => rings.headD []
  | .multiPolygon polys => (polys.map fun p => p.headD []).flatten

/-- A fold that appends chunks equals the flatten of the mapped list. -/
theorem foldl_append_eq_flatten {α : Type} (fc : α → List GeoPoint) :
    ∀ (l : List α) (acc : List GeoPoint),
      l.foldl (fun a x => a ++ fc x) acc = acc ++ (l.map fc).flatten := by
  intro l
  induction l with
  | nil => intro acc; simp
  | cons x t ih => intro acc; simp [ih, List.append_assoc]

/-- The code's vertex average, rewritten with `List.sum` over the projected
components. -/
theorem meanCenter_eq (coords : List GeoPoint) :
    meanCenter coords =
      { lat := (coords.map Prod.snd).sum / (coords.length : ℚ)
        lng := (coords.map Prod.fst).sum / (coords.length : ℚ) } := by
  unfold meanCenter
  have hsnd : coords.foldl (fun s c => s + c.2) 0 = (coords.map Prod.snd).sum := by
    rw [List.sum_eq_foldl, ← List.foldl_map]
  have hfst : coords.foldl (fun s c => s + c.1) 0 = (coords.map Prod.fst).sum := by
    rw [List.sum_eq_foldl, ← List.foldl_map]
  rw [hsnd, hfst]

/-- C7 counterexample: a `Polygon` whose `coordinates` array is empty has an
empty coordinate set, yet the source reads `.length` of `undefined` and
throws a `TypeError` (modelled `none`) instead of returning the configured
fallback center. -/
theorem calculateGeometryCenter_throws_on_ringless_polygon :
    calculateGeometryCenter (Geometry.polygon []) = none ∧
    calculateGeometryCenter (Geometry.polygon []) ≠ some texasFallbackCenter := by
  exact ⟨rfl, by decide⟩

/-- C7 (amended): on geometries whose listed members each carry an outer
ring, the centroid is the arithmetic mean of the concatenated outer-ring
vertices, the configured fallback on an empty vertex set, and exactly the
vertex itself for a single-vertex set; a `Polygon` with no rings at all
instead throws (see the counterexample). -/
theorem calculateGeometryCenter_vertex_mean (g : Geometry)
    (h : geomRingsPresent g = true) :
    calculateGeometryCenter g =
      some (if outerVertices g = [] then texasFallbackCenter
        else
          { lat := ((outerVertices g).map Prod.snd).sum / ((outerVertices g).length : ℚ)
            lng := ((outerVertices g).map Prod.fst).sum / ((outerVertices g).length : ℚ) }) ∧
    (∀ p : GeoPoint, outerVertices g = [p] →
      calculateGeometryCenter g = some { lat := p.2, lng := p.1 }) := by
  have hmain : calculateGeometryCenter g =
      some (if outerVertices g = [] then texasFallbackCenter
        else
          { lat := ((outerVertices g).map Prod.snd).sum / ((outerVertices g).length : ℚ)
            lng := ((outerVertices g).map Prod.fst).sum / ((outerVertices g).length : ℚ) }) := by
    cases g with
    | polygon rings =>
        cases rings with
        | nil => simp [geomRingsPresent] at h
        | cons r t =>
            simp only [calculateGeometryCenter, outerVertices, List.headD_cons]
            by_cases hr : r = []
            · subst hr; simp
            · have hre : r.isEmpty = false := by simpa [List.isEmpty_iff] using hr
              rw [hre, if_neg hr, meanCenter_eq]
              simp
    | multiPolygon polys =>
        have hne : (polys.any fun p => p.isEmpty) = false := by
          simp only [geomRingsPresent, List.all_eq_true] at h
          simp only [List.any_eq_false]
          intro p hp
          simpa using h p hp
        have hfold : polys.foldl (fun acc p => acc ++ p.headD []) [] =
            (polys.map fun p => p.headD []).flatten := by
          simpa using foldl_append_eq_flatten (fun p => p.headD []) polys []
        simp only [calculateGeometryCenter, outerVertices, hne, Bool.false_eq_true,
          if_false, hfold]
        by_cases hv : (polys.map fun p => p.headD []).flatten = []
        · rw [hv]
          simp
        · have hve : ((polys.map fun p => p.headD []).flatten).isEmpty = false := by
            simpa [List.isEmpty_iff] using hv
          rw [hve, if_neg hv, meanCenter_eq]
          simp
  refine ⟨hmain, ?_⟩
  intro p hp
  rw [hmain, hp]
  simp

/-- C7 witness: the centroid theorem instantiated on a two-member
`MultiPolygon` (three vertices, mean `(4, 2)`) and on a single-vertex
`Polygon`. -/
theorem calculateGeometryCenter_vertex_mean_witness :
    geomRingsPresent (Geometry.multiPolygon [[[(0, 0), (2, 4)]], [[(4, 8)]]]) = true ∧
    (calculateGeometryCenter (Geometry.multiPolygon [[[(0, 0), (2, 4)]], [[(4, 8)]]]) =
      some (if outerVertices (Geometry.multiPolygon [[[(0, 0), (2, 4)]], [[(4, 8)]]]) = []
        then texasFallbackCenter
        else
          { lat := ((outerVertices (Geometry.multiPolygon [[[(0, 0), (2, 4)]], [[(4, 8)]]])).map Prod.snd).sum /
              ((outerVertices (Geometry.multiPolygon [[[(0, 0), (2, 4)]], [[(4, 8)]]])).length : ℚ)
            lng := ((outerVertices (Geometry.multiPolygon [[[(0, 0), (2, 4)]], [[(4, 8)]]])).map Prod.fst).sum /
              ((outerVertices (Geometry.multiPolygon [[[(0, 0), (2, 4)]], [[(4, 8)]]])).length : ℚ) })) ∧
    geomRingsPresent (Geometry.polygon [[(2, 3)]]) = true ∧
    calculateGeometryCenter (Geometry.polygon [[(2, 3)]]) = some { lat := 3, lng := 2 } :=
  ⟨by decide,
    (calculateGeometryCenter_vertex_mean _ (by decide)).1,
    by decide,
    (calculateGeometryCenter_vertex_mean _ (by decide)).2 (2, 3) (by decide)⟩


/-- A string starting with a nonempty literal prefix is never empty. -/
theorem append_ne_empty (a s : String) (ha : a.data ≠ []) : ((a ++ s) == "") = false := by
  apply beq_eq_false_iff_ne.mpr
  intro h
  have h2 := congrArg String.data h
  rw [String.data_append] at h2
  simp at h2
  exact ha h2.1

/-- Features built by the fan-out pass `validateCongressionalDistrict` for
every index at least 1: the generated strings are nonempty and the state is
`TX`. -/
theorem validate_mkDistrictFeature (n : Nat) (hn : 1 ≤ n) (g : Geometry) :
    validateCongressionalDistrict (mkDistrictFeature n g) = true := by
  unfold validateCongressionalDistrict mkDistrictFeature
  have h1 := append_ne_empty "TX-" (toString n) (by decide)
  have h2 := append_ne_empty "Texas "
    (toString n ++ getOrdinalSuffix n ++ " Congressional District") (by decide)
  have h3 := append_ne_empty "Representative " (toString n) (by decide)
  simp only [String.append_assoc] at h2 ⊢
  simp [h1, h2, h3, Nat.not_lt.mpr hn]

/-- Shape of a successful per-index result: the feature is the constructed
one and the district carries the index. -/
theorem processDistrictFetch_some (n : Nat) (fr : FetchResult)
    (pr : CongressionalDistrictFeature × CongressionalDistrict)
    (h : processDistrictFetch n fr = some pr) :
    (∃ g, pr.1 = mkDistrictFeature n g) ∧ pr.2.number = n := by
  cases fr with
  | httpFailure s => exact absurd h (by simp [processDistrictFetch])
  | parseFailure => exact absurd h (by simp [processDistrictFetch])
  | body og =>
      cases og with
      | none => exact absurd h (by simp [processDistrictFetch])
      | some g =>
          simp only [processDistrictFetch] at h
          cases hc : calculateGeometryCenter g with
          | none => rw [hc] at h; exact absurd h (by simp)
          | some c =>
              rw [hc] at h
              simp only [Option.some.injEq] at h
              subst h
              exact ⟨⟨g, rfl⟩, rfl⟩

/-- The per-index results, projected to district numbers, are the index
list filtered by per-index success. -/
theorem filterMap_map_number
    (F : Nat → Option (CongressionalDistrictFeature × CongressionalDistrict))
    (hF : ∀ n pr, F n = some pr → pr.2.number = n) (ns : List Nat) :
    ((ns.filterMap F).map fun pr => pr.2.number) =
      ns.filter fun n => (F n).isSome := by
  induction ns with
  | nil => rfl
  | cons n t ih =>
      cases hFn : F n with
      | none => simp [List.filterMap_cons, List.filter_cons, hFn, ih]
      | some pr => simp [List.filterMap_cons, List.filter_cons, hFn, ih, hF n pr hFn]

/-- The 36-way fan-out with one HTTP 404 at index 14. -/
def scenario404 : Nat → FetchResult := fun n =>
  if n = 14 then .httpFailure 404 else .body (some squareGeometry)

/-- C2: the loader produces exactly one district per succeeded index (in
index order) and none for a failed index, and sets `districtsError` exactly
when zero indices succeed; with exactly one 404 among the 36 fetches it
yields 35 districts and Success. -/
theorem loadCongressionalDistricts_fanout :
    (∀ f : Nat → FetchResult,
      ((loadCongressionalDistricts f).congressionalDistricts.map (·.number) =
        districtNumbers.filter fun n => (processDistrictFetch n (f n)).isSome) ∧
      ((loadCongressionalDistricts f).districtsError = none ↔
        ∃ n ∈ districtNumbers, (processDistrictFetch n (f n)).isSome)) ∧
    (loadCongressionalDistricts scenario404).congressionalDistricts.length = 35 ∧
    (loadCongressionalDistricts scenario404).districtsError = none := by
  have hmain : ∀ f : Nat → FetchResult,
      ((loadCongressionalDistricts f).congressionalDistricts.map (·.number) =
        districtNumbers.filter fun n => (processDistrictFetch n (f n)).isSome) ∧
      ((loadCongressionalDistricts f).districtsError = none ↔
        ∃ n ∈ districtNumbers, (processDistrictFetch n (f n)).isSome) := by
    intro f
    have hchar : ((districtNumbers.filterMap fun n => processDistrictFetch n (f n)).map
          fun pr => pr.2.number) =
        districtNumbers.filter fun n => (processDistrictFetch n (f n)).isSome :=
      filterMap_map_number _ (fun n pr h => (processDistrictFetch_some n (f n) pr h).2) _
    have hvalid : ∀ pr ∈ districtNumbers.filterMap fun n => processDistrictFetch n (f n),
        validateCongressionalDistrict pr.1 = true := by
      intro pr hpr
      rw [List.mem_filterMap] at hpr
      obtain ⟨n, hn, hFe⟩ := hpr
      have hn1 : 1 ≤ n := (by decide : ∀ m ∈ districtNumbers, 1 ≤ m) n hn
      obtain ⟨⟨g, hg⟩, _⟩ := processDistrictFetch_some n (f n) pr hFe
      rw [hg]
      exact validate_mkDistrictFeature n hn1 g
    have hres : loadCongressionalDistricts f =
        (if (districtNumbers.filterMap fun n => processDistrictFetch n (f n)).length = 0 then
          { rawDistrictFeatures := []
            congressionalDistricts := []
            districtsError := some "Failed to load congressional districts data: No valid congressional districts found in the data" }
        else
          { rawDistrictFeatures :=
              (districtNumbers.filterMap fun n => processDistrictFetch n (f n)).map (·.1)
            congressionalDistricts :=
              (districtNumbers.filterMap fun n => processDistrictFetch n (f n)).map (·.2)
            districtsError := none }) := by
      simp only [loadCongressionalDistricts]
      rw [show List.filterMap id
            (List.map (fun n => processDistrictFetch n (f n)) districtNumbers) =
          districtNumbers.filterMap (fun n => processDistrictFetch n (f n)) from by simp]
      rw [List.filter_eq_self.mpr hvalid]
    by_cases hz : (districtNumbers.filterMap fun n => processDistrictFetch n (f n)).length = 0
    · have hnil : (districtNumbers.filterMap fun n => processDistrictFetch n (f n)) = [] :=
        List.length_eq_zero.mp hz
      rw [hres, if_pos hz]
      constructor
      · show ([] : List CongressionalDistrict).map (·.number) = _
        rw [← hchar, hnil]
        rfl
      · constructor
        · intro hcontra
          exact absurd hcontra (by simp)
        · rintro ⟨n, hn, hsome⟩
          have hne : districtNumbers.filter
              (fun n => (processDistrictFetch n (f n)).isSome) ≠ [] := by
            rw [ne_eq, List.filter_eq_nil_iff]
            push_neg
            exact ⟨n, hn, by simpa using hsome⟩
          rw [← hchar, hnil] at hne
          exact absurd rfl hne
    · rw [hres, if_neg hz]
      constructor
      · simpa [List.map_map, Function.comp] using hchar
      · constructor
        · intro _
          by_contra hno
          push_neg at hno
          have hfe : districtNumbers.filter
              (fun n => (processDistrictFetch n (f n)).isSome) = [] := by
            rw [List.filter_eq_nil_iff]
            intro a ha
            simpa using hno a ha
          rw [← hchar] at hfe
          exact hz (by simpa using congrArg List.length hfe)
        · intro _
          rfl
  refine ⟨hmain, ?_, ?_⟩ <;> decide


/-- C2 witness: the fan-out characterization instantiated on the
one-404-among-36 run. -/
theorem loadCongressionalDistricts_fanout_witness :
    ((loadCongressionalDistricts scenario404).congressionalDistricts.map (·.number) =
      districtNumbers.filter fun n => (processDistrictFetch n (scenario404 n)).isSome) ∧
    ((loadCongressionalDistricts scenario404).districtsError = none ↔
      ∃ n ∈ districtNumbers, (processDistrictFetch n (scenario404 n)).isSome) :=
  loadCongressionalDistricts_fanout.1 scenario404

/-- C6 witness: the gate clauses and the filter characterization
instantiated on concrete queries. -/
theorem filteredPrograms_gate_and_match_witness :
    filteredPrograms ⟨false, true, 2⟩ "austin" [austinProgram] = [austinProgram] ∧
    filteredPrograms ⟨true, true, 2⟩ "a" [austinProgram] = [austinProgram] ∧
    filteredPrograms ⟨true, true, 2⟩ "aus" [austinProgram, houstonProgram] =
      [austinProgram, houstonProgram].filter (fun p =>
        jsIncludes (jsToLower p.name) (jsTrim (jsToLower "aus")) ||
        jsIncludes (jsToLower p.address) (jsTrim (jsToLower "aus")) ||
        granteeMatch p.grantee (jsTrim (jsToLower "aus"))) :=
  ⟨filteredPrograms_gate_and_match.1 ⟨false, true, 2⟩ "austin" [austinProgram] (Or.inr rfl),
    filteredPrograms_gate_and_match.1 ⟨true, true, 2⟩ "a" [austinProgram] (Or.inl (by decide)),
    filteredPrograms_gate_and_match.2.1 ⟨true, true, 2⟩ "aus" [austinProgram, houstonProgram]
      rfl (by decide)⟩

/-- C4: while the pre-increment counter is below the cap a failed attempt
sets the error, increments the counter and schedules exactly one automatic
re-attempt after `1000 * 2 ^ retryCount` ms; at or beyond the cap the error
stays set and nothing is scheduled; a full failing chain from a fresh state
runs the initial attempt plus three retries (delays 1000, 2000, 4000) and
stops with the error set; the explicit retry entry point resets the counter
to 0 and re-enters loading with the error cleared. -/
theorem retryPolicy_backoff_and_cap :
    (∀ s msg, s.retryCount < MAX_RETRY_ATTEMPTS →
      scheduledRetryDelay s = some (1000 * 2 ^ s.retryCount) ∧
      (failedAttemptState msg s).error = some msg ∧
      (failedAttemptState msg s).retryCount = s.retryCount + 1) ∧
    (∀ s msg, MAX_RETRY_ATTEMPTS ≤ s.retryCount →
      scheduledRetryDelay s = none ∧
      (failedAttemptState msg s).error = some msg) ∧
    (∀ msg, runFailingAttempts msg { loading := true, error := none, retryCount := 0 } =
      ({ loading := false, error := some msg, retryCount := 4 }, [1000, 2000, 4000])) ∧
    (∀ s msg,
      (retryLoading (failedAttemptState msg s)).retryCount = 0 ∧
      (retryLoading (failedAttemptState msg s)).loading = true ∧
      (retryLoading (failedAttemptState msg s)).error = none) := by
  refine ⟨?_, ?_, ?_, ?_⟩
  · intro s msg h
    refine ⟨?_, rfl, rfl⟩
    simp [scheduledRetryDelay, h]
  · intro s msg h
    refine ⟨?_, rfl⟩
    simp [scheduledRetryDelay, Nat.not_lt.mpr h]
  · intro msg
    rfl
  · intro s msg
    exact ⟨rfl, rfl, rfl⟩

/-- C4 witness: the retry clauses instantiated at concrete states. -/
theorem retryPolicy_backoff_and_cap_witness :
    scheduledRetryDelay { loading := true, error := none, retryCount := 2 } = some 4000 ∧
    scheduledRetryDelay { loading := false, error := some "m", retryCount := 3 } = none ∧
    runFailingAttempts "m" { loading := true, error := none, retryCount := 0 } =
      ({ loading := false, error := some "m", retryCount := 4 }, [1000, 2000, 4000]) ∧
    (retryLoading (failedAttemptState "m"
      { loading := false, error := none, retryCount := 3 })).retryCount = 0 :=
  ⟨(retryPolicy_backoff_and_cap.1 { loading := true, error := none, retryCount := 2 }
      "m" (by decide)).1,
    (retryPolicy_backoff_and_cap.2.1 { loading := false, error := some "m", retryCount := 3 }
      "m" (by decide)).1,
    retryPolicy_backoff_and_cap.2.2.1 "m",
    (retryPolicy_backoff_and_cap.2.2.2 { loading := false, error := none, retryCount := 3 }
      "m").1⟩

/-- C5: the enrichment merge maps each district either to a field merge
from the first member whose parsed district number equals the district's
index (name, party, photo, contact, committees overwritten; index,
population, center, programs, feature untouched) or, with no matching
member, to itself unchanged. -/
theorem updateDistricts_merge (members : List CongressApiMember)
    (ds : List CongressionalDistrict) (i : Nat) (d : CongressionalDistrict)
    (hd : ds[i]? = some d) :
    (updateDistrictsWithMembers members ds).length = ds.length ∧
    (∀ m, members.find? (fun x => memberMatchesDistrict x d) = some m →
      ∃ d2, (updateDistrictsWithMembers members ds)[i]? = some d2 ∧
        d2.representative = m.name ∧
        d2.party = some m.party ∧
        d2.photoUrl = m.depiction.bind Depiction.imageUrl ∧
        d2.contact = some
          { phone := m.contactInformation.bind ContactInformation.phoneNumber
            email := m.contactInformation.bind ContactInformation.email
            website := m.contactInformation.bind ContactInformation.websiteUrl
            office := m.contactInformation.bind ContactInformation.officeAddress } ∧
        d2.committees = some (m.termsCommittees.getD []) ∧
        d2.number = d.number ∧
        d2.population = d.population ∧
        d2.center = d.center ∧
        d2.headStartPrograms = d.headStartPrograms ∧
        d2.geoJsonFeature = d.geoJsonFeature) ∧
    (members.find? (fun x => memberMatchesDistrict x d) = none →
      (updateDistrictsWithMembers members ds)[i]? = some d) := by
  refine ⟨by simp [updateDistrictsWithMembers], ?_, ?_⟩
  · intro m hm
    refine ⟨applyRepresentative m d, ?_, rfl, rfl, rfl, rfl, rfl, rfl, rfl, rfl, rfl, rfl⟩
    simp [updateDistrictsWithMembers, List.getElem?_map, hd, hm]
  · intro hm
    simp [updateDistrictsWithMembers, List.getElem?_map, hd, hm]

/-- Member record with district string `2` (scenario of the claim). -/
def repJane : CongressApiMember :=
  { name := "Jane Doe", party := "R", district := "2"
    depiction := none, contactInformation := none, termsCommittees := none }

/-- Zone with index 2 (will be matched and overwritten). -/
def zone2 : CongressionalDistrict :=
  { number := 2, representative := "Representative 2", party := none
    photoUrl := none, contact := none, committees := none
    population := 750000, center := { lat := 0, lng := 0 }
    headStartPrograms := [], geoJsonFeature := mkDistrictFeature 2 squareGeometry }

/-- Zone with index 5 (no matching member; left untouched). -/
def zone5 : CongressionalDistrict :=
  { number := 5, representative := "Representative 5", party := none
    photoUrl := none, contact := none, committees := none
    population := 750000, center := { lat := 0, lng := 0 }
    headStartPrograms := [], geoJsonFeature := mkDistrictFeature 5 squareGeometry }

/-- C5 witness: the merge instantiated on the scenario of the claim — the
member whose district string is `2` overwrites the index-2 zone's
representative, and the index-5 zone comes back unchanged. -/
theorem updateDistricts_merge_witness :
    (∃ d2, (updateDistrictsWithMembers [repJane] [zone2, zone5])[0]? = some d2 ∧
      d2.representative = "Jane Doe" ∧ d2.party = some "R" ∧ d2.number = 2) ∧
    (updateDistrictsWithMembers [repJane] [zone2, zone5])[1]? = some zone5 := by
  refine ⟨?_, ?_⟩
  · obtain ⟨d2, hget, hrep, hparty, _, _, _, hnum, _⟩ :=
      (updateDistricts_merge [repJane] [zone2, zone5] 0 zone2 rfl).2.1 repJane rfl
    exact ⟨d2, hget, by rw [hrep]; rfl, by rw [hparty]; rfl, by rw [hnum]; rfl⟩
  · exact (updateDistricts_merge [repJane] [zone2, zone5] 1 zone5 rfl).2.2 rfl


/-!
Real-valued geometry: the Haversine distance and the zoom heuristic call
transcendental functions (`Math.sin`, `Math.atan2`, `Math.log2`), so these
are embedded over `ℝ` (hence the noncomputable definitions).
-/

/-- Embeds `degreesToRadians` from `src/utils/mapHelpers.ts`. -/
noncomputable def degreesToRadians (degrees : ℝ) : ℝ :=
  degrees * (Real.pi / 180)

/-- Embeds `Math.atan2(y, x)` on finite arguments: the argument of the
complex number `x + i*y` (range `(-pi, pi]`, `atan2(0, 0) = 0`). -/
noncomputable def jsAtan2 (y x : ℝ) : ℝ :=
  Complex.arg ⟨x, y⟩

/-- Embeds `calculateDistance` from `src/utils/mapHelpers.ts`, including
its identical-points shortcut. -/
noncomputable def calculateDistanceMapHelpers (lat1 lng1 lat2 lng2 : ℝ) : ℝ :=
  if lat1 = lat2 ∧ lng1 = lng2 then 0
  else
    let dLat := degreesToRadians (lat2 - lat1)
    let dLng := degreesToRadians (lng2 - lng1)
    let a := Real.sin (dLat / 2) * Real.sin (dLat / 2) +
      Real.cos (degreesToRadians lat1) * Real.cos (degreesToRadians lat2) *
      Real.sin (dLng / 2) * Real.sin (dLng / 2)
    let c := 2 * jsAtan2 (Real.sqrt a) (Real.sqrt (1 - a))
    6371 * c

/-- Embeds `calculateDistance` from `src/data/headStartPrograms.ts` (no
shortcut, radians conversion written inline). -/
noncomputable def calculateDistanceData (lat1 lng1 lat2 lng2 : ℝ) : ℝ :=
  let dLat := (lat2 - lat1) * Real.pi / 180
  let dLng := (lng2 - lng1) * Real.pi / 180
  let a := Real.sin (dLat / 2) * Real.sin (dLat / 2) +
    Real.cos (lat1 * Real.pi / 180) * Real.cos (lat2 * Real.pi / 180) *
    Real.sin (dLng / 2) * Real.sin (dLng / 2)
  let c := 2 * jsAtan2 (Real.sqrt a) (Real.sqrt (1 - a))
  6371 * c

/-- The `a` term of the Haversine formula is symmetric in the two points. -/
theorem haversineA_symm (x1 y1 x2 y2 : ℝ) :
    Real.sin (degreesToRadians (x1 - x2) / 2) * Real.sin (degreesToRadians (x1 - x2) / 2) +
      Real.cos (degreesToRadians x2) * Real.cos (degreesToRadians x1) *
      Real.sin (degreesToRadians (y1 - y2) / 2) * Real.sin (degreesToRadians (y1 - y2) / 2) =
    Real.sin (degreesToRadians (x2 - x1) / 2) * Real.sin (degreesToRadians (x2 - x1) / 2) +
      Real.cos (degreesToRadians x1) * Real.cos (degreesToRadians x2) *
      Real.sin (degreesToRadians (y2 - y1) / 2) * Real.sin (degreesToRadians (y2 - y1) / 2) := by
  have hx : degreesToRadians (x1 - x2) / 2 = -(degreesToRadians (x2 - x1) / 2) := by
    unfold degreesToRadians; ring
  have hy : degreesToRadians (y1 - y2) / 2 = -(degreesToRadians (y2 - y1) / 2) := by
    unfold degreesToRadians; ring
  rw [hx, hy, Real.sin_neg, Real.sin_neg]
  ring

/-- C9: both Haversine implementations return exactly 0 on identical points
and are symmetric in their two arguments. -/
theorem calculateDistance_zero_and_symm :
    (∀ lat lng : ℝ, calculateDistanceMapHelpers lat lng lat lng = 0) ∧
    (∀ lat1 lng1 lat2 lng2 : ℝ,
      calculateDistanceMapHelpers lat1 lng1 lat2 lng2 =
        calculateDistanceMapHelpers lat2 lng2 lat1 lng1) ∧
    (∀ lat lng : ℝ, calculateDistanceData lat lng lat lng = 0) ∧
    (∀ lat1 lng1 lat2 lng2 : ℝ,
      calculateDistanceData lat1 lng1 lat2 lng2 =
        calculateDistanceData lat2 lng2 lat1 lng1) := by
  have hone : (⟨1, 0⟩ : ℂ) = 1 := rfl
  have hzero : ∀ lat lng : ℝ, calculateDistanceData lat lng lat lng = 0 := by
    intro lat lng
    unfold calculateDistanceData jsAtan2
    simp [hone, Complex.arg_one]
  refine ⟨?_, ?_, hzero, ?_⟩
  · intro lat lng
    unfold calculateDistanceMapHelpers
    rw [if_pos ⟨rfl, rfl⟩]
  · intro lat1 lng1 lat2 lng2
    by_cases h : lat1 = lat2 ∧ lng1 = lng2
    · obtain ⟨h1, h2⟩ := h
      subst h1; subst h2
      rfl
    · have h2 : ¬(lat2 = lat1 ∧ lng2 = lng1) := fun hc => h ⟨hc.1.symm, hc.2.symm⟩
      unfold calculateDistanceMapHelpers
      rw [if_neg h, if_neg h2]
      simp only [haversineA_symm lat2 lng2 lat1 lng1]
  · intro lat1 lng1 lat2 lng2
    unfold calculateDistanceData
    have ha : Real.sin ((lat2 - lat1) * Real.pi / 180 / 2) *
          Real.sin ((lat2 - lat1) * Real.pi / 180 / 2) +
        Real.cos (lat1 * Real.pi / 180) * Real.cos (lat2 * Real.pi / 180) *
          Real.sin ((lng2 - lng1) * Real.pi / 180 / 2) *
          Real.sin ((lng2 - lng1) * Real.pi / 180 / 2) =
        Real.sin ((lat1 - lat2) * Real.pi / 180 / 2) *
          Real.sin ((lat1 - lat2) * Real.pi / 180 / 2) +
        Real.cos (lat2 * Real.pi / 180) * Real.cos (lat1 * Real.pi / 180) *
          Real.sin ((lng1 - lng2) * Real.pi / 180 / 2) *
          Real.sin ((lng1 - lng2) * Real.pi / 180 / 2) := by
      have hx : (lat2 - lat1) * Real.pi / 180 / 2 = -((lat1 - lat2) * Real.pi / 180 / 2) := by
        ring
      have hy : (lng2 - lng1) * Real.pi / 180 / 2 = -((lng1 - lng2) * Real.pi / 180 / 2) := by
        ring
      rw [hx, hy, Real.sin_neg, Real.sin_neg]
      ring
    simp only [ha]


/-- Extended JavaScript number for the zoom computation, whose
intermediate values can be `NaN` or infinite. -/
inductive JsNumber where
  | nan
  | posInf
  | negInf
  | fin (x : ℝ)

/-- Embeds `Math.log2` on a finite argument: `-Infinity` at `0`, `NaN` on
negative input. -/
noncomputable def jsLog2 (x : ℝ) : JsNumber :=
  if 0 < x then .fin (Real.logb 2 x) else if x = 0 then .negInf else .nan

/-- Subtraction `c - v` of an extended value from a finite constant. -/
noncomputable def jsSubFrom (c : ℝ) : JsNumber → JsNumber
  | .fin x => .fin (c - x)
  | .posInf => .negInf
  | .negInf => .posInf
  | .nan => .nan

/-- Embeds `Math.round` (half away from zero upward, i.e. `⌊x + 1/2⌋`;
infinities and `NaN` pass through). -/
noncomputable def jsRound : JsNumber → JsNumber
  | .fin x => .fin ((round x : ℤ) : ℝ)
  | v => v

/-- Embeds `Math.max(v, m)` with a finite second argument. -/
noncomputable def jsMaxR : JsNumber → ℝ → JsNumber
  | .nan, _ => .nan
  | .posInf, _ => .posInf
  | .negInf, m => .fin m
  | .fin x, m => .fin (max x m)

/-- Embeds `Math.min(v, m)` with a finite second argument. -/
noncomputable def jsMinR : JsNumber → ℝ → JsNumber
  | .nan, _ => .nan
  | .posInf, m => .fin m
  | .negInf, _ => .negInf
  | .fin x, m => .fin (min x m)

/-- Map viewport bounds. -/
structure Bounds where
  north : ℝ
  south : ℝ
  east : ℝ
  west : ℝ

/-- Embeds `getZoomLevelForBounds` from `src/utils/mapHelpers.ts`. -/
noncomputable def getZoomLevelForBounds (bounds : Bounds) (minZoom maxZoom : ℝ) : JsNumber :=
  let latDelta := bounds.north - bounds.south
  let lngDelta := bounds.east - bounds.west
  let maxDelta := max latDelta lngDelta
  jsMinR (jsMaxR (jsRound (jsSubFrom 14 (jsLog2 (maxDelta * 100)))) minZoom) maxZoom

/-- The span the zoom is computed from: `max(latSpan, lngSpan)`. -/
def maxSpan (bounds : Bounds) : ℝ :=
  max (bounds.north - bounds.south) (bounds.east - bounds.west)

/-- The result is a finite number lying in `[minZoom, maxZoom]`. -/
def inZoomRange : JsNumber → ℝ → ℝ → Prop
  | .fin z, mn, mx => mn ≤ z ∧ z ≤ mx
  | _, _, _ => False

/-- Finite value of the zoom computation on a nonnegative span. -/
noncomputable def zoomValue (d mn mx : ℝ) : ℝ :=
  if d = 0 then mx
  else min (max ((round (14 - Real.logb 2 (d * 100)) : ℤ) : ℝ) mn) mx

/-- On a nonnegative span the zoom computation evaluates to
`zoomValue (maxSpan b)`. -/
theorem getZoomLevelForBounds_eval (b : Bounds) (mn mx : ℝ)
    (h0 : 0 ≤ maxSpan b) :
    getZoomLevelForBounds b mn mx = .fin (zoomValue (maxSpan b) mn mx) := by
  rw [show getZoomLevelForBounds b mn mx =
      jsMinR (jsMaxR (jsRound (jsSubFrom 14 (jsLog2 (maxSpan b * 100)))) mn) mx from rfl]
  unfold zoomValue
  by_cases hd : maxSpan b = 0
  · rw [hd, if_pos rfl]
    norm_num [jsLog2, jsSubFrom, jsRound, jsMaxR, jsMinR]
  · have hpos : 0 < maxSpan b := lt_of_le_of_ne h0 (Ne.symm hd)
    have hx : 0 < maxSpan b * 100 := by positivity
    rw [if_neg hd]
    simp [jsLog2, hx, jsSubFrom, jsRound, jsMaxR, jsMinR]

/-- The finite zoom value is clamped to `[minZoom, maxZoom]`. -/
theorem zoomValue_mem (d mn mx : ℝ) (hmm : mn ≤ mx) :
    mn ≤ zoomValue d mn mx ∧ zoomValue d mn mx ≤ mx := by
  unfold zoomValue
  by_cases hd : d = 0
  · rw [if_pos hd]
    exact ⟨hmm, le_refl mx⟩
  · rw [if_neg hd]
    exact ⟨le_min (le_max_right _ _) hmm, min_le_right _ _⟩

/-- The finite zoom value is antitone in the span on nonnegative spans. -/
theorem zoomValue_antitone (d1 d2 mn mx : ℝ) (h0 : 0 ≤ d1) (h12 : d1 ≤ d2) :
    zoomValue d2 mn mx ≤ zoomValue d1 mn mx := by
  unfold zoomValue
  by_cases hd1 : d1 = 0
  · rw [if_pos hd1]
    by_cases hd2 : d2 = 0
    · rw [if_pos hd2]
    · rw [if_neg hd2]
      exact min_le_right _ _
  · have hpos1 : 0 < d1 := lt_of_le_of_ne h0 (Ne.symm hd1)
    have hpos2 : 0 < d2 := lt_of_lt_of_le hpos1 h12
    rw [if_neg hd1, if_neg (ne_of_gt hpos2)]
    have hlog : Real.logb 2 (d1 * 100) ≤ Real.logb 2 (d2 * 100) :=
      Real.logb_le_logb_of_le one_lt_two (by positivity) (by nlinarith)
    have hsub : 14 - Real.logb 2 (d2 * 100) ≤ 14 - Real.logb 2 (d1 * 100) := by linarith
    have hround : round (14 - Real.logb 2 (d2 * 100)) ≤ round (14 - Real.logb 2 (d1 * 100)) := by
      rw [round_eq, round_eq]
      exact Int.floor_le_floor (by linarith)
    have hcast : ((round (14 - Real.logb 2 (d2 * 100)) : ℤ) : ℝ) ≤
        ((round (14 - Real.logb 2 (d1 * 100)) : ℤ) : ℝ) := by
      exact_mod_cast hround
    exact min_le_min (max_le_max hcast (le_refl mn)) (le_refl mx)

/-- C8 counterexample: inverted bounds (span `-1`) drive `Math.log2` to
`NaN`, which propagates through rounding and clamping, so the result is
neither an integer nor within `[minZoom, maxZoom]`. -/
theorem getZoomLevelForBounds_nan_on_negative_span :
    getZoomLevelForBounds { north := 0, south := 1, east := 0, west := 1 } 3 18 =
      JsNumber.nan ∧
    ¬ inZoomRange
      (getZoomLevelForBounds { north := 0, south := 1, east := 0, west := 1 } 3 18) 3 18 ∧
    (3 : ℝ) ≤ 18 := by
  have h : getZoomLevelForBounds { north := 0, south := 1, east := 0, west := 1 } 3 18 =
      JsNumber.nan := by
    unfold getZoomLevelForBounds
    have hm : max ((0 : ℝ) - 1) ((0 : ℝ) - 1) * 100 = -100 := by
      rw [max_self]
      norm_num
    simp only [hm]
    rw [show jsLog2 (-100) = JsNumber.nan from by unfold jsLog2; norm_num]
    rfl
  refine ⟨h, ?_, by norm_num⟩
  rw [h]
  exact fun hc => hc

/-- C8 (amended): for all bounds with nonnegative `max(latSpan, lngSpan)`
and all `minZoom ≤ maxZoom`, the zoom is a finite value within
`[minZoom, maxZoom]` and is monotone non-increasing in the span; a negative
span instead yields `NaN` (see the counterexample). -/
theorem getZoomLevelForBounds_monotone_clamped (b1 b2 : Bounds) (mn mx : ℝ)
    (hmm : mn ≤ mx) (h0 : 0 ≤ maxSpan b1) (h12 : maxSpan b1 ≤ maxSpan b2) :
    ∃ z1 z2 : ℝ,
      getZoomLevelForBounds b1 mn mx = .fin z1 ∧
      getZoomLevelForBounds b2 mn mx = .fin z2 ∧
      z2 ≤ z1 ∧ mn ≤ z1 ∧ z1 ≤ mx ∧ mn ≤ z2 ∧ z2 ≤ mx := by
  refine ⟨zoomValue (maxSpan b1) mn mx, zoomValue (maxSpan b2) mn mx,
    getZoomLevelForBounds_eval b1 mn mx h0,
    getZoomLevelForBounds_eval b2 mn mx (le_trans h0 h12),
    zoomValue_antitone (maxSpan b1) (maxSpan b2) mn mx h0 h12,
    (zoomValue_mem (maxSpan b1) mn mx hmm).1,
    (zoomValue_mem (maxSpan b1) mn mx hmm).2,
    (zoomValue_mem (maxSpan b2) mn mx hmm).1,
    (zoomValue_mem (maxSpan b2) mn mx hmm).2⟩

/-- C8 witness: the amended theorem instantiated on spans 1 and 2 with the
default zoom range. -/
theorem getZoomLevelForBounds_monotone_clamped_witness :
    (3 : ℝ) ≤ 18 ∧ 0 ≤ maxSpan { north := 1, south := 0, east := 0, west := 0 } ∧
    maxSpan { north := 1, south := 0, east := 0, west := 0 } ≤
      maxSpan { north := 2, south := 0, east := 0, west := 0 } ∧
    ∃ z1 z2 : ℝ,
      getZoomLevelForBounds { north := 1, south := 0, east := 0, west := 0 } 3 18 = .fin z1 ∧
      getZoomLevelForBounds { north := 2, south := 0, east := 0, west := 0 } 3 18 = .fin z2 ∧
      z2 ≤ z1 ∧ 3 ≤ z1 ∧ z1 ≤ 18 ∧ 3 ≤ z2 ∧ z2 ≤ 18 :=
  ⟨by norm_num, by simp [maxSpan], by simp [maxSpan],
    getZoomLevelForBounds_monotone_clamped
      { north := 1, south := 0, east := 0, west := 0 }
      { north := 2, south := 0, east := 0, west := 0 } 3 18
      (by norm_num) (by simp [maxSpan]) (by simp [maxSpan])⟩

end TxHs
